import Mathlib

/-!
Verification of the user-account backend: account store, registration
handler, token handler and profile handler, with the calc helper module.
The handlers and the store live behind the web framework; they are
embedded here as pure functions over an explicit list of account records.
-/

namespace RecipeApp

/-- Account record of the store: login email, opaque credential hash,
display name and the three capability flags with their defaults. -/
structure Account where
  email : String
  passwordHash : String
  name : String
  isActive : Bool := true
  isStaff : Bool := false
  isSuperuser : Bool := false
  deriving DecidableEq

/-- Modelled from the spec: stands in for the one-way credential hash the
framework library computes (the hashing code is not among the sources).
The stand-in is injective, which models that verification succeeds exactly
on the original plaintext. -/
def hashPassword (p : String) : String := "pbkdf2:" ++ p

/-- Modelled from the spec: credential verification, comparing the stored
opaque hash with the hash of the submitted plaintext. -/
def checkPassword (plain stored : String) : Bool := stored == hashPassword plain

/-- The account store keyed by email: first record whose email matches. -/
def findByEmail (store : List Account) (e : String) : Option Account :=
  store.find? (fun a => a.email == e)

/-- Number of records of the store holding the given email. -/
def emailCount (store : List Account) (e : String) : Nat :=
  store.countP (fun a => a.email == e)

/-- An HTTP response: status code and a flat body of string fields. -/
structure Response where
  status : Nat
  body : List (String × String)
  deriving DecidableEq

/-- Modelled from the spec: the Registration Handler behind POST /create/
(the serializer code is not among the sources). Validates password length
at least 5 and email freshness; on success stores the hashed credential
and echoes only email and name. -/
def registerUser (store : List Account) (email password name : String) :
    Response × List Account :=
  if password.length < 5 then
    ({ status := 400, body := [("error", "password too short")] }, store)
  else if (findByEmail store email).isSome then
    ({ status := 400, body := [("error", "email already registered")] }, store)
  else
    ({ status := 201, body := [("email", email), ("name", name)] },
     store ++ [{ email := email, passwordHash := hashPassword password, name := name }])

/-- Modelled from the spec: credential check of the Token Handler; a blank
password never authenticates, otherwise the stored hash must verify
against the submitted plaintext. -/
def verifyCredentials (store : List Account) (email password : String) :
    Option Account :=
  if password == "" then none
  else
    match findByEmail store email with
    | some a => if checkPassword password a.passwordHash then some a else none
    | none => none

/-- Modelled from the spec: the opaque bearer token bound to an account;
embedded as a non-empty string determined by the account email. -/
def issueToken (email : String) : String := "tok:" ++ email

/-- Modelled from the spec: the Token Handler behind POST /token/. On a
credential match it returns the bearer token, otherwise status 400 with no
token field. -/
def tokenEndpoint (store : List Account) (email password : String) : Response :=
  match verifyCredentials store email password with
  | some a => { status := 200, body := [("token", issueToken a.email)] }
  | none => { status := 400, body := [("error", "unable to authenticate")] }

/-- HTTP methods the profile endpoint distinguishes. -/
inductive Method
  | get
  | post
  | put
  | patch
  | delete
  deriving DecidableEq

/-- Body of a PATCH to the profile endpoint: optional name and password. -/
structure PatchBody where
  name : Option String
  password : Option String
  deriving DecidableEq

/-- Modelled from the spec: the profile update, replacing the display name
when given and re-hashing the password when given. -/
def updateAccount (a : Account) (body : PatchBody) : Account :=
  { a with
    name := body.name.getD a.name,
    passwordHash :=
      match body.password with
      | some p => hashPassword p
      | none => a.passwordHash }

/-- Validation of the PATCH body: a submitted password shorter than 5
characters is rejected. -/
def patchPasswordTooShort (body : PatchBody) : Bool :=
  match body.password with
  | some p => decide (p.length < 5)
  | none => false

/-- Modelled from the spec: the Profile Handler behind /me/ (the view code
is not among the sources). Without a token every request is 401; GET
returns name and email of the bound account; PATCH validates and updates
the bound record in the store; every other method is 405. -/
def meEndpoint (store : List Account) (auth : Option Account) (m : Method)
    (body : PatchBody) : Response × List Account :=
  match auth with
  | none => ({ status := 401, body := [("detail", "authentication required")] }, store)
  | some a =>
    match m with
    | Method.get =>
        ({ status := 200, body := [("name", a.name), ("email", a.email)] }, store)
    | Method.patch =>
        if patchPasswordTooShort body then
          ({ status := 400, body := [("error", "password too short")] }, store)
        else
          ({ status := 200,
             body := [("name", (updateAccount a body).name),
                      ("email", (updateAccount a body).email)] },
           store.map (fun b => if b.email == a.email then updateAccount a body else b))
    | _ => ({ status := 405, body := [("detail", "method not allowed")] }, store)

/-- Modelled from the spec: the calc module is not among the sources, only
its tests are; add is embedded as the ordinary integer sum the tests
expect. -/
def add (x y : Int) : Int := x + y

/-- Modelled from the spec: the calc module is not among the sources, only
its tests are; subtract is embedded as the ordinary integer difference the
tests expect. -/
def subtract (x y : Int) : Int := x - y

/-- The concrete account the test suite registers. -/
def testAccount : Account :=
  { email := "test@example.com",
    passwordHash := hashPassword "testpass123",
    name := "Test User" }

/-- A store in which no record holds the email has no record counted for it. -/
theorem emailCount_eq_zero_of_find_none {store : List Account} {e : String}
    (h : findByEmail store e = none) : emailCount store e = 0 := by
  rw [emailCount, List.countP_eq_zero]
  exact List.find?_eq_none.mp h

/-- Lookup in an extended store, when the original store misses the email. -/
theorem findByEmail_append {store l : List Account} {e : String}
    (h : findByEmail store e = none) :
    findByEmail (store ++ l) e = findByEmail l e := by
  unfold findByEmail at h ⊢
  rw [List.find?_append, h, Option.none_or]

/-- A password of length at least five is not the blank password. -/
theorem ne_empty_of_five_le_length {p : String} (h : 5 ≤ p.length) : p ≠ "" := by
  intro he
  subst he
  rw [String.length_empty] at h
  exact absurd h (by decide)

/-- The token endpoint succeeds exactly as issued when the store holds the
email and the stored hash verifies against a non-blank password. -/
theorem tokenEndpoint_ok {store : List Account} {email password : String}
    {a : Account} (hfind : findByEmail store email = some a)
    (hpw : a.passwordHash = hashPassword password) (hne : password ≠ "") :
    tokenEndpoint store email password =
      { status := 200, body := [("token", issueToken a.email)] } := by
  have h1 : (password == "") = false := beq_eq_false_iff_ne.mpr hne
  have h2 : checkPassword password a.passwordHash = true := by
    rw [checkPassword, hpw]
    exact beq_self_eq_true (hashPassword password)
  unfold tokenEndpoint verifyCredentials
  rw [hfind, h1]
  simp [h2]

/-- Replacing the record of an email in the store is visible to lookup,
provided some record of that email was present. -/
theorem findByEmail_map_replace (store : List Account) (e : String) (a' : Account)
    (ha : a'.email = e) :
    ∀ c, findByEmail store e = some c →
      findByEmail (store.map (fun b => if b.email == e then a' else b)) e = some a' := by
  induction store with
  | nil =>
    intro c h
    simp [findByEmail] at h
  | cons b t ih =>
    intro c h
    by_cases hb : (b.email == e) = true
    · simp only [findByEmail, List.map_cons, if_pos hb]
      refine List.find?_cons_of_pos _ ?_
      rw [ha]
      exact beq_self_eq_true e
    · simp only [findByEmail, List.map_cons, if_neg hb]
      rw [@List.find?_cons_of_neg _ (fun a => a.email == e) b
        (t.map (fun b => if b.email == e then a' else b)) hb]
      have h' : findByEmail t e = some c := by
        unfold findByEmail at h
        rwa [@List.find?_cons_of_neg _ (fun a => a.email == e) b t hb] at h
      exact ih c h'

/-- C1: a POST to /create/ with a fresh email and a password of length at
least 5 returns status 201, afterwards exactly one account record for that
email exists, and its stored credential verifies against the submitted
plaintext password. -/
theorem c1_register_fresh_success (store : List Account)
    (email password name : String)
    (hfresh : findByEmail store email = none) (hlen : 5 ≤ password.length) :
    (registerUser store email password name).fst.status = 201 ∧
    emailCount (registerUser store email password name).snd email = 1 ∧
    ∃ a, findByEmail (registerUser store email password name).snd email = some a ∧
      checkPassword password a.passwordHash = true := by
  have hnl : ¬ password.length < 5 := Nat.not_lt.mpr hlen
  have hreg : registerUser store email password name =
      ({ status := 201, body := [("email", email), ("name", name)] },
       store ++ [{ email := email, passwordHash := hashPassword password,
                   name := name }]) := by
    unfold registerUser
    rw [if_neg hnl, hfresh]
    rfl
  rw [hreg]
  refine ⟨rfl, ?_, ?_⟩
  · show emailCount (store ++ [_]) email = 1
    rw [emailCount, List.countP_append]
    have h0 : List.countP (fun a => a.email == email) store = 0 :=
      emailCount_eq_zero_of_find_none hfresh
    rw [h0]
    simp [List.countP_cons, beq_self_eq_true]
  · refine ⟨{ email := email, passwordHash := hashPassword password,
              name := name }, ?_, ?_⟩
    · show findByEmail (store ++ [_]) email = _
      rw [findByEmail_append hfresh]
      exact List.find?_cons_of_pos _ (beq_self_eq_true email)
    · rw [checkPassword]
      exact beq_self_eq_true (hashPassword password)

/-- Witness for C1 at the payload the test suite submits. -/
theorem c1_register_fresh_success_witness :
    findByEmail [] "test@example.com" = none ∧ 5 ≤ "testpass123".length ∧
    ((registerUser [] "test@example.com" "testpass123" "Test User").fst.status = 201 ∧
     emailCount (registerUser [] "test@example.com" "testpass123" "Test User").snd
       "test@example.com" = 1 ∧
     ∃ a, findByEmail (registerUser [] "test@example.com" "testpass123" "Test User").snd
         "test@example.com" = some a ∧
       checkPassword "testpass123" a.passwordHash = true) :=
  ⟨rfl, by decide,
   c1_register_fresh_success [] "test@example.com" "testpass123" "Test User"
     rfl (by decide)⟩

/-- C2: a second registration with an email the store already holds returns
status 400, the store is unchanged, and still exactly one record for that
email exists. -/
theorem c2_duplicate_email_rejected (store : List Account)
    (email password name : String) (hdup : emailCount store email = 1) :
    (registerUser store email password name).fst.status = 400 ∧
    (registerUser store email password name).snd = store ∧
    emailCount (registerUser store email password name).snd email = 1 := by
  have hsome : (findByEmail store email).isSome = true := by
    cases hf : findByEmail store email with
    | some a => rfl
    | none =>
      have h0 := emailCount_eq_zero_of_find_none hf
      rw [hdup] at h0
      exact absurd h0 (by decide)
  unfold registerUser
  by_cases hl : password.length < 5
  · rw [if_pos hl]
    exact ⟨rfl, rfl, hdup⟩
  · rw [if_neg hl, hsome]
    exact ⟨rfl, rfl, hdup⟩

/-- Witness for C2: re-registering the already stored test account. -/
theorem c2_duplicate_email_rejected_witness :
    emailCount [testAccount] "test@example.com" = 1 ∧
    ((registerUser [testAccount] "test@example.com" "testpass123" "Test User").fst.status = 400 ∧
     (registerUser [testAccount] "test@example.com" "testpass123" "Test User").snd =
       [testAccount] ∧
     emailCount (registerUser [testAccount] "test@example.com" "testpass123" "Test User").snd
       "test@example.com" = 1) :=
  ⟨rfl, c2_duplicate_email_rejected [testAccount] "test@example.com" "testpass123"
    "Test User" rfl⟩

/-- C3: registration with a password of length under 5 returns status 400
and leaves the store unchanged. -/
theorem c3_short_password_rejected (store : List Account)
    (email password name : String) (h : password.length < 5) :
    (registerUser store email password name).fst.status = 400 ∧
    (registerUser store email password name).snd = store := by
  unfold registerUser
  rw [if_pos h]
  exact ⟨rfl, rfl⟩

/-- Witness for C3 at the too-short password of the test suite. -/
theorem c3_short_password_rejected_witness :
    "pw".length < 5 ∧
    ((registerUser [] "test@example.com" "pw" "Test User").fst.status = 400 ∧
     (registerUser [] "test@example.com" "pw" "Test User").snd = []) :=
  ⟨by decide, c3_short_password_rejected [] "test@example.com" "pw" "Test User"
    (by decide)⟩

/-- C4: a POST to /token/ with a stored email and the matching non-blank
password returns status 200 and a body holding the non-empty bearer token
bound to that account. -/
theorem c4_token_success (store : List Account) (email password : String)
    (a : Account) (hfind : findByEmail store email = some a)
    (hpw : a.passwordHash = hashPassword password)
    (hlen : 5 ≤ password.length) :
    (tokenEndpoint store email password).status = 200 ∧
    (tokenEndpoint store email password).body.lookup "token" =
      some (issueToken a.email) ∧
    issueToken a.email ≠ "" := by
  rw [tokenEndpoint_ok hfind hpw (ne_empty_of_five_le_length hlen)]
  refine ⟨rfl, rfl, ?_⟩
  intro h
  have hl := congrArg String.length h
  rw [issueToken, String.length_append, String.length_empty] at hl
  have h4 : "tok:".length = 4 := rfl
  omega

/-- Witness for C4: the stored test account authenticates with its
registration password. -/
theorem c4_token_success_witness :
    findByEmail [testAccount] "test@example.com" = some testAccount ∧
    ((tokenEndpoint [testAccount] "test@example.com" "testpass123").status = 200 ∧
     (tokenEndpoint [testAccount] "test@example.com" "testpass123").body.lookup "token" =
       some (issueToken testAccount.email) ∧
     issueToken testAccount.email ≠ "") :=
  ⟨rfl, c4_token_success [testAccount] "test@example.com" "testpass123" testAccount
    rfl rfl (by decide)⟩

/-- C5: a POST to /token/ with a blank password, or with a password whose
hash differs from the stored credential of the given email, returns status
400 and a body with no token field. -/
theorem c5_token_failure (store : List Account) (email password : String)
    (h : password = "" ∨ ∀ a, findByEmail store email = some a →
      a.passwordHash ≠ hashPassword password) :
    (tokenEndpoint store email password).status = 400 ∧
    (tokenEndpoint store email password).body.lookup "token" = none := by
  have hv : verifyCredentials store email password = none := by
    unfold verifyCredentials
    by_cases hb : (password == "") = true
    · rw [if_pos hb]
    · rw [if_neg hb]
      rcases h with h | h
      · exact absurd (beq_iff_eq.mpr h) hb
      · cases hf : findByEmail store email with
        | none => rfl
        | some a =>
          have hc : checkPassword password a.passwordHash = false := by
            rw [checkPassword]
            exact beq_eq_false_iff_ne.mpr (h a hf)
          simp [hc]
  unfold tokenEndpoint
  rw [hv]
  exact ⟨rfl, rfl⟩

/-- Witness for C5: the blank password never authenticates. -/
theorem c5_token_failure_witness :
    (tokenEndpoint [testAccount] "test@example.com" "").status = 400 ∧
    (tokenEndpoint [testAccount] "test@example.com" "").body.lookup "token" = none :=
  c5_token_failure [testAccount] "test@example.com" "" (Or.inl rfl)

/-- C6: a GET to /me/ without a token returns status 401; with a token it
returns status 200 with a body of exactly the name and email of the bound
account and no password field. -/
theorem c6_me_get_profile (store : List Account) (a : Account) (body : PatchBody) :
    (meEndpoint store none Method.get body).fst.status = 401 ∧
    (meEndpoint store (some a) Method.get body).fst.status = 200 ∧
    (meEndpoint store (some a) Method.get body).fst.body =
      [("name", a.name), ("email", a.email)] ∧
    (meEndpoint store (some a) Method.get body).fst.body.lookup "password" = none :=
  ⟨rfl, rfl, rfl, rfl⟩

/-- C7: a PATCH to /me/ by an authenticated caller updating name and
password (new password of length at least 5) returns status 200, the
stored record then carries the submitted name and a credential verifying
against the new plaintext, and the new password authenticates at the token
endpoint. -/
theorem c7_patch_updates_profile (store : List Account) (a : Account)
    (newName newPassword : String)
    (hfind : findByEmail store a.email = some a)
    (hlen : 5 ≤ newPassword.length) :
    (meEndpoint store (some a) Method.patch ⟨some newName, some newPassword⟩).fst.status = 200 ∧
    (∃ b, findByEmail
        (meEndpoint store (some a) Method.patch ⟨some newName, some newPassword⟩).snd
        a.email = some b ∧
      b.name = newName ∧ checkPassword newPassword b.passwordHash = true) ∧
    (tokenEndpoint
      (meEndpoint store (some a) Method.patch ⟨some newName, some newPassword⟩).snd
      a.email newPassword).status = 200 := by
  have hnl : ¬ newPassword.length < 5 := Nat.not_lt.mpr hlen
  have hshort : patchPasswordTooShort ⟨some newName, some newPassword⟩ = false := by
    rw [patchPasswordTooShort]
    exact decide_eq_false hnl
  have hme : meEndpoint store (some a) Method.patch ⟨some newName, some newPassword⟩ =
      ({ status := 200,
         body := [("name", (updateAccount a ⟨some newName, some newPassword⟩).name),
                  ("email", (updateAccount a ⟨some newName, some newPassword⟩).email)] },
       store.map (fun b => if b.email == a.email
         then updateAccount a ⟨some newName, some newPassword⟩ else b)) := by
    unfold meEndpoint
    rw [hshort]
    rfl
  rw [hme]
  have hfind2 : findByEmail
      (store.map (fun b => if b.email == a.email
        then updateAccount a ⟨some newName, some newPassword⟩ else b))
      a.email = some (updateAccount a ⟨some newName, some newPassword⟩) :=
    findByEmail_map_replace store a.email
      (updateAccount a ⟨some newName, some newPassword⟩) rfl a hfind
  refine ⟨rfl, ⟨updateAccount a ⟨some newName, some newPassword⟩, hfind2, rfl, ?_⟩, ?_⟩
  · rw [checkPassword]
    exact beq_self_eq_true (hashPassword newPassword)
  · rw [tokenEndpoint_ok hfind2 rfl (ne_empty_of_five_le_length hlen)]

/-- Witness for C7 at the update payload of the test suite. -/
theorem c7_patch_updates_profile_witness :
    findByEmail [testAccount] testAccount.email = some testAccount ∧
    ((meEndpoint [testAccount] (some testAccount) Method.patch
        ⟨some "Updated Name", some "newpassword123"⟩).fst.status = 200 ∧
     (∃ b, findByEmail
         (meEndpoint [testAccount] (some testAccount) Method.patch
           ⟨some "Updated Name", some "newpassword123"⟩).snd
         testAccount.email = some b ∧
       b.name = "Updated Name" ∧
       checkPassword "newpassword123" b.passwordHash = true) ∧
     (tokenEndpoint
       (meEndpoint [testAccount] (some testAccount) Method.patch
         ⟨some "Updated Name", some "newpassword123"⟩).snd
       testAccount.email "newpassword123").status = 200) :=
  ⟨rfl, c7_patch_updates_profile [testAccount] testAccount "Updated Name"
    "newpassword123" rfl (by decide)⟩

/-- C8: a POST, PUT or DELETE to /me/ by an authenticated caller returns
status 405 and leaves the store unchanged. -/
theorem c8_me_method_not_allowed (store : List Account) (a : Account)
    (m : Method) (body : PatchBody)
    (hm : m = Method.post ∨ m = Method.put ∨ m = Method.delete) :
    (meEndpoint store (some a) m body).fst.status = 405 ∧
    (meEndpoint store (some a) m body).snd = store := by
  rcases hm with h | h | h <;> subst h <;> exact ⟨rfl, rfl⟩

/-- Witness for C8: a POST to /me/ as in the test suite. -/
theorem c8_me_method_not_allowed_witness :
    (Method.post = Method.post ∨ Method.post = Method.put ∨
      Method.post = Method.delete) ∧
    ((meEndpoint [testAccount] (some testAccount) Method.post ⟨none, none⟩).fst.status = 405 ∧
     (meEndpoint [testAccount] (some testAccount) Method.post ⟨none, none⟩).snd =
       [testAccount]) :=
  ⟨Or.inl rfl, c8_me_method_not_allowed [testAccount] testAccount Method.post
    ⟨none, none⟩ (Or.inl rfl)⟩

/-- C9: no response of the registration, token or profile endpoint, on any
input, carries a password field: the password is write-only across the
public interface. -/
theorem c9_password_never_in_response (store : List Account)
    (email password name : String) (auth : Option Account) (m : Method)
    (body : PatchBody) :
    (registerUser store email password name).fst.body.lookup "password" = none ∧
    (tokenEndpoint store email password).body.lookup "password" = none ∧
    (meEndpoint store auth m body).fst.body.lookup "password" = none := by
  refine ⟨?_, ?_, ?_⟩
  · unfold registerUser
    by_cases h1 : password.length < 5
    · rw [if_pos h1]
      rfl
    · rw [if_neg h1]
      by_cases h2 : (findByEmail store email).isSome = true
      · rw [h2]
        rfl
      · rw [Bool.eq_false_iff.mpr h2]
        rfl
  · unfold tokenEndpoint
    cases hv : verifyCredentials store email password with
    | some a => rfl
    | none => rfl
  · cases auth with
    | none => rfl
    | some a =>
      cases m with
      | get => rfl
      | post => rfl
      | put => rfl
      | delete => rfl
      | patch =>
        by_cases hp : patchPasswordTooShort body = true
        · simp [meEndpoint, hp, List.lookup]
        · simp [meEndpoint, hp, List.lookup]

/-- C10: the calc module computes ordinary integer arithmetic: add of 3
and 8 is 11, subtract of 10 and 5 is 5, and in general add is the sum and
subtract the difference of the two arguments. -/
theorem c10_calc_add_subtract (x y : Int) :
    add 3 8 = 11 ∧ subtract 10 5 = 5 ∧ add x y = x + y ∧ subtract x y = x - y :=
  ⟨rfl, rfl, rfl, rfl⟩

end RecipeApp
